import Mathlib

/-!
Shallow embedding of the nomination-pools accounting engine
(frame/nomination-pools/src/lib.rs) and verification of its specification.

Balances are `u128` values modelled as `Nat` clamped at `2^128 - 1` with
explicit saturating operations; reward-pool points are `U256` values
modelled the same way at `2^256 - 1`.  Storage maps (`CountedStorageMap`,
`BoundedBTreeMap`) are modelled as association lists from `Nat` keys
(account ids / era indices) to values; free balances are a total function
from account id to balance, since the balance ledger itself is external.
-/

/-- Maximum value of the `u128` balance type. -/
def maxU128 : Nat := 2 ^ 128 - 1

/-- Maximum value of the `U256` reward-points type. -/
def maxU256 : Nat := 2 ^ 256 - 1

/-- Saturating `u128` addition (`Saturating::saturating_add`). -/
def satAdd128 (a b : Nat) : Nat := min (a + b) maxU128

/-- Saturating `u128` multiplication (`Saturating::saturating_mul`). -/
def satMul128 (a b : Nat) : Nat := min (a * b) maxU128

/-- Saturating `U256` addition. -/
def satAdd256 (a b : Nat) : Nat := min (a + b) maxU256

/-- Saturating `U256` multiplication. -/
def satMul256 (a b : Nat) : Nat := min (a * b) maxU256

/-- Modelled from the spec: the runtime-supplied infallible
`U256ToBalance` conversion (`Config::U256ToBalance`, external to the
pallet), modelled as saturating into the `u128` balance range. -/
def u256ToBalance (x : Nat) : Nat := min x maxU128

/-- Association-list lookup: the model of `StorageMap::get` /
`BTreeMap::get`. -/
def lookupA {α : Type} (l : List (Nat × α)) (k : Nat) : Option α :=
  match l with
  | [] => none
  | (k', v) :: rest => if k' = k then some v else lookupA rest k

/-- Association-list membership: the model of `contains_key`. -/
def containsA {α : Type} (l : List (Nat × α)) (k : Nat) : Bool :=
  (lookupA l k).isSome

/-- Association-list removal: the model of `StorageMap::remove`. -/
def removeA {α : Type} (l : List (Nat × α)) (k : Nat) : List (Nat × α) :=
  l.filter (fun p => p.1 != k)

/-- Association-list insert/overwrite: the model of `StorageMap::insert`. -/
def insertA {α : Type} (l : List (Nat × α)) (k : Nat) (v : α) : List (Nat × α) :=
  (k, v) :: removeA l k

/-- Pointwise update of the free-balance ledger. -/
def updF (f : Nat → Nat) (k v : Nat) : Nat → Nat :=
  fun a => if a = k then v else f a

/-- Modelled from the spec: `Currency::transfer` of the external balance
subsystem; fails exactly when the source's free balance is insufficient
(the existential-deposit subtleties of the external ledger are out of
scope). -/
def transferB (bal : Nat → Nat) (src dst amt : Nat) : Option (Nat → Nat) :=
  if bal src < amt then none
  else
    let b1 := updF bal src (bal src - amt)
    some (updF b1 dst (b1 dst + amt))

/-- Calculate the number of points to issue from a pool as
`(current_points / current_balance) * new_funds` except for some zero edge
cases (`points_to_issue` in the source; `POINTS_TO_BALANCE_INIT_RATIO` is 1). -/
def points_to_issue (current_balance current_points new_funds : Nat) : Nat :=
  match decide (current_balance = 0), decide (current_points = 0) with
  | true, true => satMul128 new_funds 1
  | false, true => satMul128 new_funds 1
  | true, false =>
    -- The pool was totally slashed: `(current_points / 1) * new_funds`.
    satMul128 new_funds current_points
  | false, false =>
    -- Equivalent to `(current_points / current_balance) * new_funds`.
    satMul128 current_points new_funds / current_balance

/-- Calculate the balance of a pool to unbond as
`(current_balance / current_points) * delegator_points`; zero if any input
is zero (`balance_to_unbond` in the source). -/
def balance_to_unbond (current_balance current_points delegator_points : Nat) : Nat :=
  if current_balance = 0 ∨ current_points = 0 ∨ delegator_points = 0 then 0
  else satMul128 current_balance delegator_points / current_points

/-- One unbonding sub-pool (`UnbondPool`). -/
structure UnbondPool where
  points : Nat
  balance : Nat
deriving DecidableEq

/-- A pool's family of unbonding sub-pools (`SubPools`): the era-less
`no_era` pool and the era-indexed `with_era` map. -/
structure SubPools where
  no_era : UnbondPool
  with_era : List (Nat × UnbondPool)
deriving DecidableEq

/-- The three pool lifecycle states (`PoolState`). -/
inductive PoolState where
  | Open
  | Blocked
  | Destroying
deriving DecidableEq

/-- The stored form of a bonded pool (`BondedPoolStorage`); the pool's own
account id is the storage key. -/
structure BondedPoolStorage where
  points : Nat
  depositor : Nat
  root : Nat
  nominator : Nat
  state_toggler : Nat
  state : PoolState
deriving DecidableEq

/-- A reward pool (`RewardPool`): `points` is the `U256` virtual-points
count. -/
structure RewardPool where
  account : Nat
  balance : Nat
  total_earnings : Nat
  points : Nat
deriving DecidableEq

/-- A pool member (`Delegator`). -/
structure Delegator where
  pool : Nat
  points : Nat
  reward_pool_total_earnings : Nat
  unbonding_era : Option Nat
deriving DecidableEq

/-- The pallet's storage plus the external free-balance ledger. -/
structure PoolsState where
  min_join_bond : Nat
  min_create_bond : Nat
  max_pools : Option Nat
  delegators : List (Nat × Delegator)
  bondedPools : List (Nat × BondedPoolStorage)
  rewardPools : List (Nat × RewardPool)
  subPoolsStorage : List (Nat × SubPools)
  balances : Nat → Nat

/-- Runtime configuration constants (`Config::PoolSizeMax`,
`Config::PostUnbondingPoolsWindow`). -/
structure PoolsConfig where
  poolSizeMax : Nat
  postUnbondingPoolsWindow : Nat

/-- The abstract staking interface (`StakingInterface`), supplied by the
external staking engine.  The `..Ok` fields model whether the
corresponding fallible external call succeeds. -/
structure StakingIface where
  bondedBalance : Nat → Option Nat
  currentEra : Option Nat
  bondingDuration : Nat
  minimumBond : Nat
  unbondOk : Nat → Nat → Bool
  bondExtraOk : Nat → Nat → Bool
  withdrawUnbondedOk : Nat → Nat → Bool
  bondOk : Nat → Nat → Bool

/-- `TotalUnbondingPools`: `bonding_duration + PostUnbondingPoolsWindow`. -/
def totalUnbondingPools (cfg : PoolsConfig) (stk : StakingIface) : Nat :=
  stk.bondingDuration + cfg.postUnbondingPoolsWindow

/-- The pallet's error taxonomy (`Error<T>`), plus two constructors for
errors propagated from the external balance and staking subsystems. -/
inductive PoolsError where
  | PoolNotFound
  | DelegatorNotFound
  | RewardPoolNotFound
  | SubPoolsNotFound
  | AccountBelongsToOtherPool
  | InsufficientBond
  | AlreadyUnbonding
  | NotUnbonding
  | NotUnbondedYet
  | MinimumBondNotMet
  | OverflowRisk
  | IdInUse
  | NotDestroying
  | NotOnlyDelegator
  | NotNominator
  | NotKickerOrDestroying
  | NotOpen
  | MaxPools
  | TransferFailed
  | StakingFailed
deriving DecidableEq

/-- `UnbondPool::issue`: mint points against the sub-pool's own ratio and
add the new funds to its balance. -/
def UnbondPool.issue (p : UnbondPool) (new_funds : Nat) : UnbondPool :=
  { points := satAdd128 p.points (points_to_issue p.balance p.points new_funds),
    balance := satAdd128 p.balance new_funds }

/-- `SubPools::maybe_merge_pools`: fold every `with_era` entry older than
`current_era - TotalUnbondingPools` into `no_era`.  `w` is the
`TotalUnbondingPools` bound. -/
def SubPools.maybe_merge_pools (sp : SubPools) (w current_era : Nat) : SubPools :=
  if current_era < w then sp
  else
    let newest_era_to_remove := current_era - w
    let removed := sp.with_era.filter (fun p => decide (p.1 ≤ newest_era_to_remove))
    let kept := sp.with_era.filter (fun p => !decide (p.1 ≤ newest_era_to_remove))
    { no_era := removed.foldl
        (fun acc p =>
          { points := satAdd128 acc.points p.2.points,
            balance := satAdd128 acc.balance p.2.balance })
        sp.no_era,
      with_era := kept }

/-- `SubPools::unchecked_with_era_get_or_make` followed by
`UnbondPool::issue` on the returned entry: the only way `unbond_other`
grows `with_era`. -/
def SubPools.get_or_make_issue (sp : SubPools) (era new_funds : Nat) : SubPools :=
  let current := (lookupA sp.with_era era).getD ⟨0, 0⟩
  { sp with with_era := insertA sp.with_era era (current.issue new_funds) }

/-- `RewardPool::update_total_earnings_and_balance`, with the reward
account's current free balance passed explicitly. -/
def RewardPool.update_total_earnings_and_balance
    (rp : RewardPool) (current_balance : Nat) : RewardPool :=
  { rp with
    total_earnings := satAdd128 (current_balance - rp.balance) rp.total_earnings,
    balance := current_balance }

/-- `BondedPool::can_kick`. -/
def can_kick (bp : BondedPoolStorage) (who : Nat) : Bool :=
  decide ((who = bp.root ∨ who = bp.state_toggler) ∧ bp.state = PoolState.Blocked)

/-- `BondedPool::is_destroying`. -/
def is_destroying (bp : BondedPoolStorage) : Bool :=
  decide (bp.state = PoolState.Destroying)

/-- `BondedPool::ok_to_unbond_other_with`: the permission matrix for
unbonding `target` by `caller`. -/
def ok_to_unbond_other_with (bp : BondedPoolStorage) (caller target : Nat)
    (target_delegator : Delegator) : Option PoolsError :=
  let is_permissioned := decide (caller = target)
  let is_depositor := decide (target = bp.depositor)
  match is_permissioned, is_depositor with
  | false, false =>
    if can_kick bp caller || is_destroying bp then none
    else some PoolsError.NotKickerOrDestroying
  | true, false => none
  | false, true | true, true =>
    if target_delegator.points ≠ bp.points then some PoolsError.NotOnlyDelegator
    else if ¬ is_destroying bp then some PoolsError.NotDestroying
    else none

/-- `BondedPool::ok_to_withdraw_unbonded_other_with`: permission check for
`withdraw_unbonded_other`; `true` means the pool should be removed. -/
def ok_to_withdraw_unbonded_other_with (bp : BondedPoolStorage) (caller target : Nat)
    (target_delegator : Delegator) (sub_pools : SubPools) : Except PoolsError Bool :=
  if target = bp.depositor then
    if sub_pools.no_era.points ≠ 0 then
      if sub_pools.with_era.length ≠ 0 then Except.error PoolsError.NotOnlyDelegator
      else if sub_pools.no_era.points ≠ target_delegator.points then
        Except.error PoolsError.NotOnlyDelegator
      else Except.ok true
    else
      if sub_pools.with_era.length ≠ 1 then Except.error PoolsError.NotOnlyDelegator
      else
        match sub_pools.with_era.head? with
        | some p =>
          if p.2.points = target_delegator.points then Except.ok true
          else Except.error PoolsError.NotOnlyDelegator
        | none => Except.error PoolsError.NotOnlyDelegator
  else
    if caller = target ∨ can_kick bp caller ∨ is_destroying bp then Except.ok false
    else Except.error PoolsError.NotKickerOrDestroying

/-- `BondedPool::ok_to_join_with`: the join admission checks (state Open,
nonzero bonded balance, and the two `PoolSizeMax` overflow bounds). -/
def ok_to_join_with (cfg : PoolsConfig) (stk : StakingIface) (bp : BondedPoolStorage)
    (account new_funds : Nat) : Option PoolsError :=
  if bp.state ≠ PoolState.Open then some PoolsError.NotOpen
  else
    let bonded_balance := (stk.bondedBalance account).getD 0
    if bonded_balance = 0 then some PoolsError.OverflowRisk
    else if ¬ (bp.points / bonded_balance < cfg.poolSizeMax) then
      some PoolsError.OverflowRisk
    else if ¬ (satAdd128 new_funds bonded_balance < maxU128 / cfg.poolSizeMax) then
      some PoolsError.OverflowRisk
    else none

/-- `Pallet::calculate_delegator_payout`, with the reward account's current
free balance passed explicitly. -/
def calculate_delegator_payout (bonded_points : Nat) (reward_pool : RewardPool)
    (delegator : Delegator) (current_free : Nat) :
    Except PoolsError (RewardPool × Delegator × Nat) :=
  if delegator.unbonding_era.isSome then Except.error PoolsError.AlreadyUnbonding
  else
    let last_total_earnings := reward_pool.total_earnings
    let reward_pool := reward_pool.update_total_earnings_and_balance current_free
    let new_earnings := reward_pool.total_earnings - last_total_earnings
    let new_points := satMul256 bonded_points new_earnings
    let current_points := satAdd256 reward_pool.points new_points
    let new_earnings_since_last_claim :=
      reward_pool.total_earnings - delegator.reward_pool_total_earnings
    let delegator_virtual_points := satMul256 delegator.points new_earnings_since_last_claim
    let delegator_payout :=
      if delegator_virtual_points = 0 ∨ current_points = 0 ∨ reward_pool.balance = 0
      then 0
      else u256ToBalance (satMul256 delegator_virtual_points reward_pool.balance / current_points)
    let delegator := { delegator with reward_pool_total_earnings := reward_pool.total_earnings }
    let reward_pool := { reward_pool with
      points := current_points - delegator_virtual_points,
      balance := reward_pool.balance - delegator_payout }
    Except.ok (reward_pool, delegator, delegator_payout)

/-- `Pallet::do_reward_payout`: compute the payout, transfer it from the
reward account, and write the updated delegator and reward pool.  All
storage writes happen after the last fallible step, matching the source. -/
def do_reward_payout (s : PoolsState) (delegator_id : Nat) (delegator : Delegator)
    (bonded_points : Nat) : Except PoolsError PoolsState :=
  match lookupA s.rewardPools delegator.pool with
  | none => Except.error PoolsError.RewardPoolNotFound
  | some reward_pool =>
    match calculate_delegator_payout bonded_points reward_pool delegator
        (s.balances reward_pool.account) with
    | Except.error e => Except.error e
    | Except.ok (reward_pool, delegator, delegator_payout) =>
      match transferB s.balances reward_pool.account delegator_id delegator_payout with
      | none => Except.error PoolsError.TransferFailed
      | some balances1 =>
        Except.ok { s with
          balances := balances1,
          rewardPools := insertA s.rewardPools delegator.pool reward_pool,
          delegators := insertA s.delegators delegator_id delegator }

/-- `Call::claim_payout`.  Its only storage writes are the terminal writes
of `do_reward_payout`, so an error leaves the state untouched. -/
def claim_payout (s : PoolsState) (who : Nat) : Option PoolsError × PoolsState :=
  match lookupA s.delegators who with
  | none => (some PoolsError.DelegatorNotFound, s)
  | some delegator =>
    match lookupA s.bondedPools delegator.pool with
    | none => (some PoolsError.PoolNotFound, s)
    | some bonded_pool =>
      match do_reward_payout s who delegator bonded_pool.points with
      | Except.error e => (some e, s)
      | Except.ok s1 => (none, s1)

/-- `Call::unbond_other`.  This dispatchable is not marked
`#[frame_support::transactional]`, so (per the dispatch semantics of the
surrounding framework at this revision, and per the spec which marks only
`join` and `create` transactional) the storage writes performed by the
embedded `do_reward_payout` survive when a later step errors: the second
component of the result is the state as mutated up to the point of the
error. -/
def unbond_other (cfg : PoolsConfig) (stk : StakingIface) (s : PoolsState)
    (caller target : Nat) : Option PoolsError × PoolsState :=
  match lookupA s.delegators target with
  | none => (some PoolsError.DelegatorNotFound, s)
  | some delegator =>
    match lookupA s.bondedPools delegator.pool with
    | none => (some PoolsError.PoolNotFound, s)
    | some bonded_pool =>
      match ok_to_unbond_other_with bonded_pool caller target delegator with
      | some e => (some e, s)
      | none =>
        -- Claim the payout prior to unbonding; this commits its writes.
        match do_reward_payout s target delegator bonded_pool.points with
        | Except.error e => (some e, s)
        | Except.ok s1 =>
          -- Re-fetch the delegator, which was updated by the payout.
          match lookupA s1.delegators target with
          | none => (some PoolsError.DelegatorNotFound, s1)
          | some delegator =>
            let sub_pools := (lookupA s1.subPoolsStorage delegator.pool).getD ⟨⟨0, 0⟩, []⟩
            let current_era := stk.currentEra.getD 0
            let bonded_balance := (stk.bondedBalance delegator.pool).getD 0
            let btu := balance_to_unbond bonded_balance bonded_pool.points delegator.points
            let bonded_pool := { bonded_pool with
              points := bonded_pool.points - delegator.points }
            if stk.unbondOk delegator.pool btu then
              let sub_pools := sub_pools.maybe_merge_pools
                (totalUnbondingPools cfg stk) current_era
              let sub_pools := sub_pools.get_or_make_issue current_era btu
              let delegator := { delegator with unbonding_era := some current_era }
              (none, { s1 with
                bondedPools := insertA s1.bondedPools delegator.pool bonded_pool,
                subPoolsStorage := insertA s1.subPoolsStorage delegator.pool sub_pools,
                delegators := insertA s1.delegators target delegator })
            else (some PoolsError.StakingFailed, s1)

/-- `Call::pool_withdraw_unbonded`: forwards to the external staking
engine; touches no pool storage. -/
def pool_withdraw_unbonded (stk : StakingIface) (s : PoolsState)
    (pool_account num_slashing_spans : Nat) : Option PoolsError × PoolsState :=
  if stk.withdrawUnbondedOk pool_account num_slashing_spans then (none, s)
  else (some PoolsError.StakingFailed, s)

/-- `Call::withdraw_unbonded_other`.  The in-memory sub-pool mutation is
committed only at the end; the defensive `RewardPools::take` in the
pool-removal branch can however error after the balance transfer. -/
def withdraw_unbonded_other (stk : StakingIface) (s : PoolsState)
    (caller target num_slashing_spans : Nat) : Option PoolsError × PoolsState :=
  match lookupA s.delegators target with
  | none => (some PoolsError.DelegatorNotFound, s)
  | some delegator =>
    match delegator.unbonding_era with
    | none => (some PoolsError.NotUnbonding, s)
    | some unbonding_era =>
      let current_era := stk.currentEra.getD 0
      if ¬ (current_era - unbonding_era ≥ stk.bondingDuration) then
        (some PoolsError.NotUnbondedYet, s)
      else
        match lookupA s.subPoolsStorage delegator.pool with
        | none => (some PoolsError.SubPoolsNotFound, s)
        | some sub_pools =>
          match lookupA s.bondedPools delegator.pool with
          | none => (some PoolsError.PoolNotFound, s)
          | some bonded_pool =>
            match ok_to_withdraw_unbonded_other_with bonded_pool caller target
                delegator sub_pools with
            | Except.error e => (some e, s)
            | Except.ok should_remove_pool =>
              let (btu, sub_pools) :=
                match lookupA sub_pools.with_era unbonding_era with
                | some pool =>
                  let btu := balance_to_unbond pool.balance pool.points delegator.points
                  let pool : UnbondPool :=
                    { points := pool.points - delegator.points,
                      balance := pool.balance - btu }
                  let with_era :=
                    if pool.points = 0 then removeA sub_pools.with_era unbonding_era
                    else insertA sub_pools.with_era unbonding_era pool
                  (btu, { sub_pools with with_era := with_era })
                | none =>
                  -- The era was merged into the era-less pool.
                  let btu := balance_to_unbond sub_pools.no_era.balance
                    sub_pools.no_era.points delegator.points
                  (btu, { sub_pools with no_era :=
                    { points := sub_pools.no_era.points - delegator.points,
                      balance := sub_pools.no_era.balance - btu } })
              if stk.withdrawUnbondedOk delegator.pool num_slashing_spans then
                let s1 :=
                  if s.balances delegator.pool ≥ btu then
                    let b1 := updF s.balances delegator.pool (s.balances delegator.pool - btu)
                    { s with balances := updF b1 target (b1 target + btu) }
                  else
                    -- Dust-withdrawn signal: no payment, record still removed.
                    s
                if should_remove_pool then
                  match lookupA s1.rewardPools delegator.pool with
                  | none => (some PoolsError.PoolNotFound, s1)
                  | some reward_pool =>
                    let balances2 := updF s1.balances reward_pool.account 0
                    let balances3 := updF balances2 delegator.pool 0
                    (none, { s1 with
                      rewardPools := removeA s1.rewardPools delegator.pool,
                      subPoolsStorage := removeA s1.subPoolsStorage delegator.pool,
                      balances := balances3,
                      bondedPools := removeA s1.bondedPools delegator.pool,
                      delegators := removeA s1.delegators target })
                else
                  (none, { s1 with
                    subPoolsStorage := insertA s1.subPoolsStorage delegator.pool sub_pools,
                    delegators := removeA s1.delegators target })
              else (some PoolsError.StakingFailed, s)

/-- `Call::join`.  Marked `#[frame_support::transactional]` in the source,
so every error returns the starting state unchanged. -/
def join (cfg : PoolsConfig) (stk : StakingIface) (s : PoolsState)
    (who amount pool_account : Nat) : Option PoolsError × PoolsState :=
  if amount < s.min_join_bond then (some PoolsError.MinimumBondNotMet, s)
  else if containsA s.delegators who then (some PoolsError.AccountBelongsToOtherPool, s)
  else
    match lookupA s.bondedPools pool_account with
    | none => (some PoolsError.PoolNotFound, s)
    | some bonded_pool =>
      match ok_to_join_with cfg stk bonded_pool pool_account amount with
      | some e => (some e, s)
      | none =>
        match lookupA s.rewardPools pool_account with
        | none => (some PoolsError.RewardPoolNotFound, s)
        | some reward_pool =>
          let reward_pool := reward_pool.update_total_earnings_and_balance
            (s.balances reward_pool.account)
          match transferB s.balances who pool_account amount with
          | none => (some PoolsError.TransferFailed, s)
          | some balances1 =>
            let bonded_balance := (stk.bondedBalance pool_account).getD 0
            let new_points := points_to_issue bonded_balance bonded_pool.points amount
            let bonded_pool := { bonded_pool with
              points := satAdd128 bonded_pool.points new_points }
            if stk.bondExtraOk pool_account amount then
              (none, { s with
                balances := balances1,
                delegators := insertA s.delegators who
                  ⟨pool_account, new_points, reward_pool.total_earnings, none⟩,
                bondedPools := insertA s.bondedPools pool_account bonded_pool })
            else (some PoolsError.StakingFailed, s)

/-- `Call::create`.  Marked `#[frame_support::transactional]` in the
source, so every error returns the starting state unchanged.  The two
accounts derived by hashing in `create_accounts` are passed as
parameters. -/
def create (stk : StakingIface) (s : PoolsState)
    (who amount pool_account reward_account root nominator state_toggler : Nat) :
    Option PoolsError × PoolsState :=
  if ¬ (amount ≥ stk.minimumBond ∧ amount ≥ s.min_create_bond) then
    (some PoolsError.MinimumBondNotMet, s)
  else
    let max_pools_ok :=
      match s.max_pools with
      | none => true
      | some m => decide (s.bondedPools.length < m)
    if max_pools_ok = false then (some PoolsError.MaxPools, s)
    else if containsA s.delegators who then (some PoolsError.AccountBelongsToOtherPool, s)
    else if containsA s.bondedPools pool_account then (some PoolsError.IdInUse, s)
    else
      let bonded_pool : BondedPoolStorage :=
        { points := 0, depositor := who, root := root, nominator := nominator,
          state_toggler := state_toggler, state := PoolState.Open }
      let points_issued := points_to_issue
        ((stk.bondedBalance pool_account).getD 0) bonded_pool.points amount
      let bonded_pool := { bonded_pool with
        points := satAdd128 bonded_pool.points points_issued }
      match transferB s.balances who pool_account amount with
      | none => (some PoolsError.TransferFailed, s)
      | some balances1 =>
        if stk.bondOk pool_account amount then
          (none, { s with
            balances := balances1,
            delegators := insertA s.delegators who
              ⟨pool_account, points_issued, 0, none⟩,
            bondedPools := insertA s.bondedPools pool_account bonded_pool,
            rewardPools := insertA s.rewardPools pool_account
              ⟨reward_account, 0, 0, 0⟩ })
        else (some PoolsError.StakingFailed, s)

/-- The arguments of the `slash_pool` interface (`SlashPoolArgs`). -/
structure SlashPoolArgs where
  pool_stash : Nat
  slash_amount : Nat
  slash_era : Nat
  apply_era : Nat
  active_bonded : Nat

/-- The result of the `slash_pool` interface (`SlashPoolOut`). -/
structure SlashPoolOut where
  slashed_bonded : Nat
  slashed_unlocking : List (Nat × Nat)
deriving DecidableEq

/-- The eras `slash_era + 1 ..= apply_era` in ascending order. -/
def affectedRange (slash_era apply_era : Nat) : List Nat :=
  List.range' (slash_era + 1) (apply_era - slash_era)

/-- `Pallet::do_slash` (the body of `slash_pool`): distribute a slash over
the active bond and the `with_era` sub-pools of the affected era range. -/
def do_slash (s : PoolsState) (args : SlashPoolArgs) : Option (SlashPoolOut × PoolsState) :=
  if containsA s.bondedPools args.pool_stash then
    let sub_pools := (lookupA s.subPoolsStorage args.pool_stash).getD ⟨⟨0, 0⟩, []⟩
    let unbonding_affected_balance :=
      (affectedRange args.slash_era args.apply_era).foldl
        (fun balance_sum era =>
          match lookupA sub_pools.with_era era with
          | some unbond_pool => satAdd128 balance_sum unbond_pool.balance
          | none => balance_sum)
        0
    let total_affected_balance := satAdd128 args.active_bonded unbonding_affected_balance
    if total_affected_balance = 0 then some (⟨0, []⟩, s)
    else
      let slashed_unlocking := (affectedRange args.slash_era args.apply_era).filterMap
        (fun era => (lookupA sub_pools.with_era era).map
          (fun unbond_pool =>
            (era, unbond_pool.balance -
              satMul128 args.slash_amount unbond_pool.balance / total_affected_balance)))
      let sub_pools' : SubPools :=
        ⟨sub_pools.no_era,
          sub_pools.with_era.map (fun p =>
            if args.slash_era + 1 ≤ p.1 ∧ p.1 ≤ args.apply_era then
              (p.1, ⟨p.2.points,
                p.2.balance - satMul128 args.slash_amount p.2.balance / total_affected_balance⟩)
            else p)⟩
      let slashed_bonded := args.active_bonded -
        satMul128 args.slash_amount args.active_bonded / total_affected_balance
      some (⟨slashed_bonded, slashed_unlocking⟩,
        { s with subPoolsStorage := insertA s.subPoolsStorage args.pool_stash sub_pools' })
  else none

/-- Total points over `no_era` and all `with_era` entries. -/
def sumPoints (sp : SubPools) : Nat :=
  sp.no_era.points + (sp.with_era.map (fun p => p.2.points)).sum

/-- Total balance over `no_era` and all `with_era` entries. -/
def sumBalance (sp : SubPools) : Nat :=
  sp.no_era.balance + (sp.with_era.map (fun p => p.2.balance)).sum

/-- The sub-pools of `pool_stash`, defaulting to empty: spec-level
abbreviation used to state C1. -/
def slashSubPools (s : PoolsState) (pool_stash : Nat) : SubPools :=
  (lookupA s.subPoolsStorage pool_stash).getD ⟨⟨0, 0⟩, []⟩

/-- The affected balance of a slash: `active_bonded` plus the sum of the
balances of the `with_era` entries with era in `slash_era + 1 ..= apply_era`,
saturated at the `u128` maximum exactly as the source's chain of
`saturating_add`s computes it (for sums within `u128` range the `min` is
the identity). -/
def slashAffectedBalance (sp : SubPools) (slash_era apply_era active_bonded : Nat) : Nat :=
  min (active_bonded + ((affectedRange slash_era apply_era).map
    (fun e => ((lookupA sp.with_era e).map UnbondPool.balance).getD 0)).sum) maxU128

/-- Spec-level quantity of a reward claim (C2): the updated lifetime
earnings, from the reward account's current free balance `b`. -/
def claimTotalEarnings (rp : RewardPool) (b : Nat) : Nat :=
  satAdd128 (b - rp.balance) rp.total_earnings

/-- Spec-level quantity of a reward claim (C2): the reward pool's current
virtual points after inflating by `bonded points × new earnings`. -/
def claimCurrentPoints (bp_points : Nat) (rp : RewardPool) (b : Nat) : Nat :=
  satAdd256 rp.points (satMul256 bp_points (claimTotalEarnings rp b - rp.total_earnings))

/-- Spec-level quantity of a reward claim (C2): the delegator's virtual
points. -/
def claimVirtualPoints (d : Delegator) (rp : RewardPool) (b : Nat) : Nat :=
  satMul256 d.points (claimTotalEarnings rp b - d.reward_pool_total_earnings)

/-- Spec-level quantity of a reward claim (C2): the payout,
`b × delegator_virtual_points / current_points` in saturating 256-bit
arithmetic, zero when any of the three zero edge cases hold. -/
def claimPayoutAmount (bp_points : Nat) (d : Delegator) (rp : RewardPool) (b : Nat) : Nat :=
  if claimVirtualPoints d rp b = 0 ∨ claimCurrentPoints bp_points rp b = 0 ∨ b = 0 then 0
  else u256ToBalance
    (satMul256 (claimVirtualPoints d rp b) b / claimCurrentPoints bp_points rp b)

/-- Concrete state for the C1 witness: one pool (account 1) with an
era-5 sub-pool of balance 50, active bond 100 (spec scenario 4). -/
def c1State : PoolsState :=
  { min_join_bond := 0, min_create_bond := 0, max_pools := none,
    delegators := [], bondedPools := [(1, ⟨100, 3, 3, 3, 3, PoolState.Open⟩)],
    rewardPools := [], subPoolsStorage := [(1, ⟨⟨0, 0⟩, [(5, ⟨50, 50⟩)]⟩)],
    balances := fun _ => 0 }

/-- Concrete slash arguments for the C1 witness: slash 30 with
`slash_era = 4`, `apply_era = 7`. -/
def c1Args : SlashPoolArgs := ⟨1, 30, 4, 7, 100⟩

/-- Concrete state for the C2 witness: delegator 2 in pool 1 with reward
account 4 holding no rewards. -/
def c2State : PoolsState :=
  { min_join_bond := 0, min_create_bond := 0, max_pools := none,
    delegators := [(2, ⟨1, 10, 0, none⟩)],
    bondedPools := [(1, ⟨10, 3, 3, 3, 3, PoolState.Open⟩)],
    rewardPools := [(1, ⟨4, 0, 0, 0⟩)], subPoolsStorage := [],
    balances := fun _ => 0 }

/-- Concrete configuration for the C10 witness. -/
def c10Cfg : PoolsConfig := ⟨10, 2⟩

/-- Concrete staking interface for the C10 witness: `current_era()` is
`None`, bonding duration 3, all external calls succeed. -/
def c10Stk : StakingIface :=
  { bondedBalance := fun _ => some 100, currentEra := none, bondingDuration := 3,
    minimumBond := 0, unbondOk := fun _ _ => true, bondExtraOk := fun _ _ => true,
    withdrawUnbondedOk := fun _ _ => true, bondOk := fun _ _ => true }

/-- Concrete state for the C10 witness: delegator 2 bonded in pool 1,
delegator 5 unbonded at era 0. -/
def c10State : PoolsState :=
  { min_join_bond := 0, min_create_bond := 0, max_pools := none,
    delegators := [(2, ⟨1, 10, 0, none⟩), (5, ⟨1, 5, 0, some 0⟩)],
    bondedPools := [(1, ⟨100, 3, 3, 3, 3, PoolState.Open⟩)],
    rewardPools := [(1, ⟨4, 0, 0, 0⟩)], subPoolsStorage := [],
    balances := fun _ => 0 }

/-- Concrete configuration for C9: `PostUnbondingPoolsWindow = 2`. -/
def c9Cfg : PoolsConfig := ⟨10, 2⟩

/-- Concrete staking interface for C9: the pool's bonded balance has been
fully slashed to 0; the current era is 5. -/
def c9Stk : StakingIface :=
  { bondedBalance := fun _ => some 0, currentEra := some 5, bondingDuration := 3,
    minimumBond := 0, unbondOk := fun _ _ => true, bondExtraOk := fun _ _ => true,
    withdrawUnbondedOk := fun _ _ => true, bondOk := fun _ _ => true }

/-- Concrete state for C9: delegator 2 holds 10 points of pool 1 whose
bonded balance is 0, so `balance_to_unbond` is 0. -/
def c9State : PoolsState :=
  { min_join_bond := 0, min_create_bond := 0, max_pools := none,
    delegators := [(2, ⟨1, 10, 0, none⟩)],
    bondedPools := [(1, ⟨10, 3, 3, 3, 3, PoolState.Open⟩)],
    rewardPools := [(1, ⟨4, 0, 0, 0⟩)], subPoolsStorage := [],
    balances := fun _ => 0 }

/-- Concrete configuration for the C7 witness: `PoolSizeMax = 10`. -/
def c7Cfg : PoolsConfig := ⟨10, 2⟩

/-- Concrete staking interface for the C7 witness: bonded balance 100. -/
def c7Stk : StakingIface :=
  { bondedBalance := fun _ => some 100, currentEra := some 1, bondingDuration := 3,
    minimumBond := 0, unbondOk := fun _ _ => true, bondExtraOk := fun _ _ => true,
    withdrawUnbondedOk := fun _ _ => true, bondOk := fun _ _ => true }

/-- Concrete state for the C7 witness: `MinJoinBond = 5`, one open pool,
account 9 holds 100 free. -/
def c7State : PoolsState :=
  { min_join_bond := 5, min_create_bond := 0, max_pools := none,
    delegators := [(2, ⟨1, 10, 0, none⟩)],
    bondedPools := [(1, ⟨10, 3, 3, 3, 3, PoolState.Open⟩)],
    rewardPools := [(1, ⟨4, 0, 0, 0⟩)], subPoolsStorage := [],
    balances := fun a => if a = 9 then 100 else 0 }

/-- Concrete configuration for the C5 counterexample. -/
def c5Cfg : PoolsConfig := ⟨10, 2⟩

/-- Concrete staking interface for the C5 counterexample: the external
`unbond` call fails. -/
def c5Stk : StakingIface :=
  { bondedBalance := fun _ => some 10, currentEra := some 1, bondingDuration := 3,
    minimumBond := 0, unbondOk := fun _ _ => false, bondExtraOk := fun _ _ => true,
    withdrawUnbondedOk := fun _ _ => true, bondOk := fun _ _ => true }

/-- Concrete state for the C5 counterexample: delegator 2 in pool 1 with
10 unclaimed reward units sitting in the reward account 4. -/
def c5State : PoolsState :=
  { min_join_bond := 0, min_create_bond := 0, max_pools := none,
    delegators := [(2, ⟨1, 10, 0, none⟩)],
    bondedPools := [(1, ⟨10, 3, 3, 3, 3, PoolState.Open⟩)],
    rewardPools := [(1, ⟨4, 0, 0, 0⟩)], subPoolsStorage := [],
    balances := fun a => if a = 4 then 10 else 0 }

example : points_to_issue 0 0 7 = 7 := by decide
example : points_to_issue 0 5 7 = 35 := by decide
example : points_to_issue 10 5 7 = 3 := by decide
example : balance_to_unbond 100 100 25 = 25 := by decide
example : balance_to_unbond 0 100 25 = 0 := by decide

/-! ### Helper lemmas -/

theorem lookupA_insertA_self {α : Type} (l : List (Nat × α)) (k : Nat) (v : α) :
    lookupA (insertA l k v) k = some v := by
  simp [insertA, lookupA]

theorem satAdd128_le (a b : Nat) : satAdd128 a b ≤ maxU128 := by
  simp [satAdd128]

theorem foldl_satAdd128 (l : List Nat) (a : Nat) (ha : a ≤ maxU128) :
    l.foldl satAdd128 a = min (a + l.sum) maxU128 := by
  induction l generalizing a with
  | nil => simpa using Nat.min_eq_left (by omega)
  | cons b t ih =>
    rw [List.foldl_cons, ih (satAdd128 a b) (satAdd128_le a b)]
    simp only [satAdd128, List.sum_cons]
    omega

/-! ### C3: points_to_issue -/

/-- C3: for every `(current_balance, current_points, new_funds)`,
`points_to_issue` returns `new_funds × 1` (the init ratio) when
`current_points = 0`; `new_funds × current_points` when
`current_balance = 0` and `current_points > 0`; and otherwise
`(current_points × new_funds) / current_balance`, with saturating
multiplication and truncating division throughout. -/
theorem c3_points_to_issue_spec (cb cp nf : Nat) :
    (cp = 0 → points_to_issue cb cp nf = satMul128 nf 1) ∧
    (cb = 0 → 0 < cp → points_to_issue cb cp nf = satMul128 nf cp) ∧
    (cb ≠ 0 → cp ≠ 0 → points_to_issue cb cp nf = satMul128 cp nf / cb) := by
  unfold points_to_issue
  refine ⟨fun h => ?_, fun h h2 => ?_, fun h h2 => ?_⟩ <;>
    rcases hcb : cb == 0 <;> rcases hcp : cp == 0 <;> simp_all

/-- Witness for C3 at concrete inputs. -/
theorem c3_witness :
    points_to_issue 10 5 7 = satMul128 5 7 / 10 ∧ points_to_issue 0 5 7 = satMul128 7 5 :=
  ⟨(c3_points_to_issue_spec 10 5 7).2.2 (by decide) (by decide),
   (c3_points_to_issue_spec 0 5 7).2.1 (by decide) (by decide)⟩

/-! ### C4: balance_to_unbond -/

/-- C4: for every `(current_balance, current_points, delegator_points)`,
`balance_to_unbond` returns zero when any input is zero, and otherwise
`(current_balance × delegator_points) / current_points` with saturating
multiplication and truncating division. -/
theorem c4_balance_to_unbond_spec (cb cp dp : Nat) :
    ((cb = 0 ∨ cp = 0 ∨ dp = 0) → balance_to_unbond cb cp dp = 0) ∧
    (cb ≠ 0 → cp ≠ 0 → dp ≠ 0 → balance_to_unbond cb cp dp = satMul128 cb dp / cp) := by
  unfold balance_to_unbond
  constructor
  · rintro (h | h | h) <;> subst h <;> simp
  · intro h1 h2 h3
    simp [h1, h2, h3]

/-- Witness for C4 at concrete inputs. -/
theorem c4_witness :
    balance_to_unbond 0 100 25 = 0 ∧ balance_to_unbond 100 100 25 = satMul128 100 25 / 100 :=
  ⟨(c4_balance_to_unbond_spec 0 100 25).1 (Or.inl rfl),
   (c4_balance_to_unbond_spec 100 100 25).2 (by decide) (by decide) (by decide)⟩

/-! ### C6: the unbond permission matrix -/

/-- C6: `ok_to_unbond_other_with` succeeds exactly when the caller is the
non-depositor target; or the caller kicks a non-depositor target with the
pool Blocked and the caller root or state-toggler, or with the pool
Destroying; or the target is the depositor holding all of the pool's
points with the pool Destroying.  The stated errors are returned in the
remaining cases. -/
theorem c6_unbond_permission_spec (bp : BondedPoolStorage) (caller target : Nat)
    (d : Delegator) :
    (ok_to_unbond_other_with bp caller target d = none ↔
      (caller = target ∧ target ≠ bp.depositor) ∨
      (caller ≠ target ∧ target ≠ bp.depositor ∧
        ((bp.state = PoolState.Blocked ∧ (caller = bp.root ∨ caller = bp.state_toggler)) ∨
          bp.state = PoolState.Destroying)) ∨
      (target = bp.depositor ∧ d.points = bp.points ∧ bp.state = PoolState.Destroying)) ∧
    (caller ≠ target → target ≠ bp.depositor →
      ¬ ((bp.state = PoolState.Blocked ∧ (caller = bp.root ∨ caller = bp.state_toggler)) ∨
          bp.state = PoolState.Destroying) →
      ok_to_unbond_other_with bp caller target d = some PoolsError.NotKickerOrDestroying) ∧
    (target = bp.depositor → d.points ≠ bp.points →
      ok_to_unbond_other_with bp caller target d = some PoolsError.NotOnlyDelegator) ∧
    (target = bp.depositor → d.points = bp.points → bp.state ≠ PoolState.Destroying →
      ok_to_unbond_other_with bp caller target d = some PoolsError.NotDestroying) := by
  by_cases hct : caller = target <;> by_cases htd : target = bp.depositor <;>
    by_cases hpts : d.points = bp.points <;> cases hst : bp.state <;>
      simp_all [ok_to_unbond_other_with, can_kick, is_destroying] <;> tauto

/-- Witness for C6: a self-unbond by a non-depositor is always allowed. -/
theorem c6_witness :
    ok_to_unbond_other_with ⟨10, 3, 3, 3, 3, PoolState.Open⟩ 2 2 ⟨1, 10, 0, none⟩ = none :=
  (c6_unbond_permission_spec ⟨10, 3, 3, 3, 3, PoolState.Open⟩ 2 2 ⟨1, 10, 0, none⟩).1.mpr
    (Or.inl ⟨rfl, by decide⟩)

/-! ### C8: maybe_merge_pools -/

theorem filter_map_sum_split (l : List (Nat × UnbondPool)) (f : Nat × UnbondPool → Nat)
    (p : Nat × UnbondPool → Bool) :
    ((l.filter p).map f).sum + ((l.filter (fun x => !p x)).map f).sum = (l.map f).sum := by
  induction l with
  | nil => simp
  | cons a t ih => cases hpa : p a <;> simp [hpa] <;> omega

theorem merge_fold_points (l : List (Nat × UnbondPool)) (acc : UnbondPool) :
    (l.foldl
      (fun acc p => UnbondPool.mk (satAdd128 acc.points p.2.points)
        (satAdd128 acc.balance p.2.balance)) acc).points
      = (l.map (fun p => p.2.points)).foldl satAdd128 acc.points := by
  induction l generalizing acc with
  | nil => rfl
  | cons b t ih => simp [ih]

theorem merge_fold_balance (l : List (Nat × UnbondPool)) (acc : UnbondPool) :
    (l.foldl
      (fun acc p => UnbondPool.mk (satAdd128 acc.points p.2.points)
        (satAdd128 acc.balance p.2.balance)) acc).balance
      = (l.map (fun p => p.2.balance)).foldl satAdd128 acc.balance := by
  induction l generalizing acc with
  | nil => rfl
  | cons b t ih => simp [ih]

/-- Counterexample for C8: when `no_era.balance` is already at the `u128`
maximum, folding an old era's balance into it saturates, so the total
balance over all sub-pools is not preserved by the merge. -/
theorem c8_merge_cex :
    sumBalance (SubPools.maybe_merge_pools ⟨⟨0, maxU128⟩, [(0, ⟨1, 1⟩)]⟩ 1 5)
      ≠ sumBalance ⟨⟨0, maxU128⟩, [(0, ⟨1, 1⟩)]⟩ := by
  decide

/-- C8 (amended): `maybe_merge_pools current_era` removes from `with_era`
exactly the entries with `era + W ≤ current_era` (that is,
`era ≤ current_era − W` over the integers, where `W` is the
`TotalUnbondingPools` bound), adds each removed entry's points and balance
to `no_era`, and leaves every remaining key with `era > current_era − W`;
the total points and total balance over `no_era` and all `with_era`
entries are unchanged provided those totals do not exceed the `u128`
maximum (the additions into `no_era` saturate there). -/
theorem c8_merge_amended (sp : SubPools) (w ce : Nat)
    (hp : sumPoints sp ≤ maxU128) (hb : sumBalance sp ≤ maxU128) :
    (sp.maybe_merge_pools w ce).with_era
        = sp.with_era.filter (fun p => !decide (p.1 + w ≤ ce)) ∧
    (∀ e ∈ (sp.maybe_merge_pools w ce).with_era.map Prod.fst, (ce : Int) - w < e) ∧
    (sp.maybe_merge_pools w ce).no_era.points
        = sp.no_era.points
          + ((sp.with_era.filter (fun p => decide (p.1 + w ≤ ce))).map
              (fun p => p.2.points)).sum ∧
    (sp.maybe_merge_pools w ce).no_era.balance
        = sp.no_era.balance
          + ((sp.with_era.filter (fun p => decide (p.1 + w ≤ ce))).map
              (fun p => p.2.balance)).sum ∧
    sumPoints (sp.maybe_merge_pools w ce) = sumPoints sp ∧
    sumBalance (sp.maybe_merge_pools w ce) = sumBalance sp := by
  have hsplitP := filter_map_sum_split sp.with_era (fun p => p.2.points)
    (fun p => decide (p.1 + w ≤ ce))
  have hsplitB := filter_map_sum_split sp.with_era (fun p => p.2.balance)
    (fun p => decide (p.1 + w ≤ ce))
  by_cases hlt : ce < w
  · -- Early return: nothing is old enough to merge.
    have hm : sp.maybe_merge_pools w ce = sp := by
      simp [SubPools.maybe_merge_pools, hlt]
    have hfilter : sp.with_era.filter (fun p => !decide (p.1 + w ≤ ce)) = sp.with_era :=
      List.filter_eq_self.mpr (fun a _ => by
        have : ¬ (a.1 + w ≤ ce) := by omega
        simpa using this)
    have hfilter2 : sp.with_era.filter (fun p => decide (p.1 + w ≤ ce)) = [] :=
      List.filter_eq_nil_iff.mpr (fun a _ => by
        have : ¬ (a.1 + w ≤ ce) := by omega
        simpa using this)
    refine ⟨by rw [hm, hfilter], ?_, by rw [hm, hfilter2]; simp, by rw [hm, hfilter2]; simp,
      by rw [hm], by rw [hm]⟩
    intro e _
    omega
  · -- Merging case: `newest_era_to_remove = ce - w`.
    have hcond : ∀ p : Nat × UnbondPool,
        decide (p.1 ≤ ce - w) = decide (p.1 + w ≤ ce) := fun p =>
      decide_eq_decide.mpr (by omega)
    have hremoved : sp.with_era.filter (fun p => decide (p.1 ≤ ce - w))
        = sp.with_era.filter (fun p => decide (p.1 + w ≤ ce)) :=
      List.filter_congr (fun a _ => hcond a)
    have hkept : sp.with_era.filter (fun p => !decide (p.1 ≤ ce - w))
        = sp.with_era.filter (fun p => !decide (p.1 + w ≤ ce)) :=
      List.filter_congr (fun a _ => by rw [hcond a])
    have hmerge : sp.maybe_merge_pools w ce =
        { no_era := (sp.with_era.filter (fun p => decide (p.1 + w ≤ ce))).foldl
            (fun acc p => UnbondPool.mk (satAdd128 acc.points p.2.points)
              (satAdd128 acc.balance p.2.balance)) sp.no_era,
          with_era := sp.with_era.filter (fun p => !decide (p.1 + w ≤ ce)) } := by
      simp [SubPools.maybe_merge_pools, hlt, hremoved, hkept]
    have hwe : (sp.maybe_merge_pools w ce).with_era
        = sp.with_era.filter (fun p => !decide (p.1 + w ≤ ce)) := by rw [hmerge]
    have hpP : sp.no_era.points ≤ maxU128 := by simp only [sumPoints] at hp; omega
    have hbB : sp.no_era.balance ≤ maxU128 := by simp only [sumBalance] at hb; omega
    have hfoldP : ((sp.with_era.filter (fun p => decide (p.1 + w ≤ ce))).foldl
        (fun acc p => UnbondPool.mk (satAdd128 acc.points p.2.points)
          (satAdd128 acc.balance p.2.balance)) sp.no_era).points
        = sp.no_era.points + ((sp.with_era.filter (fun p => decide (p.1 + w ≤ ce))).map
            (fun p => p.2.points)).sum := by
      rw [merge_fold_points, foldl_satAdd128 _ _ hpP]
      simp only [sumPoints] at hp
      omega
    have hfoldB : ((sp.with_era.filter (fun p => decide (p.1 + w ≤ ce))).foldl
        (fun acc p => UnbondPool.mk (satAdd128 acc.points p.2.points)
          (satAdd128 acc.balance p.2.balance)) sp.no_era).balance
        = sp.no_era.balance + ((sp.with_era.filter (fun p => decide (p.1 + w ≤ ce))).map
            (fun p => p.2.balance)).sum := by
      rw [merge_fold_balance, foldl_satAdd128 _ _ hbB]
      simp only [sumBalance] at hb
      omega
    have hpts : (sp.maybe_merge_pools w ce).no_era.points
        = sp.no_era.points + ((sp.with_era.filter (fun p => decide (p.1 + w ≤ ce))).map
            (fun p => p.2.points)).sum := by
      rw [hmerge]; exact hfoldP
    have hbal : (sp.maybe_merge_pools w ce).no_era.balance
        = sp.no_era.balance + ((sp.with_era.filter (fun p => decide (p.1 + w ≤ ce))).map
            (fun p => p.2.balance)).sum := by
      rw [hmerge]; exact hfoldB
    refine ⟨hwe, ?_, hpts, hbal, ?_, ?_⟩
    · intro e hmem
      rw [hwe] at hmem
      simp only [List.mem_map] at hmem
      obtain ⟨p, hpmem, hpe⟩ := hmem
      have := List.of_mem_filter hpmem
      simp only [Bool.not_eq_true', decide_eq_false_iff_not] at this
      omega
    · simp only [sumPoints, hpts, hwe]
      omega
    · simp only [sumBalance, hbal, hwe]
      omega

/-- Witness for C8 (amended) at a concrete sub-pools value: `W = 5`,
current era 12, eras 6, 8, 10 present; era 6 is folded into `no_era`. -/
theorem c8_merge_witness :
    (SubPools.maybe_merge_pools ⟨⟨2, 3⟩, [(6, ⟨4, 5⟩), (8, ⟨6, 7⟩), (10, ⟨8, 9⟩)]⟩ 5 12).with_era
        = [(8, ⟨6, 7⟩), (10, ⟨8, 9⟩)] ∧
    sumPoints (SubPools.maybe_merge_pools ⟨⟨2, 3⟩, [(6, ⟨4, 5⟩), (8, ⟨6, 7⟩), (10, ⟨8, 9⟩)]⟩ 5 12)
        = sumPoints ⟨⟨2, 3⟩, [(6, ⟨4, 5⟩), (8, ⟨6, 7⟩), (10, ⟨8, 9⟩)]⟩ := by
  have h := c8_merge_amended ⟨⟨2, 3⟩, [(6, ⟨4, 5⟩), (8, ⟨6, 7⟩), (10, ⟨8, 9⟩)]⟩ 5 12
    (by decide) (by decide)
  exact ⟨by rw [h.1]; decide, h.2.2.2.2.1⟩

/-! ### C1: slash_pool -/

theorem slash_fold_eq (we : List (Nat × UnbondPool)) (l : List Nat) (a : Nat)
    (ha : a ≤ maxU128) :
    l.foldl (fun balance_sum era =>
      match lookupA we era with
      | some unbond_pool => satAdd128 balance_sum unbond_pool.balance
      | none => balance_sum) a
    = min (a + (l.map (fun e => ((lookupA we e).map UnbondPool.balance).getD 0)).sum)
        maxU128 := by
  induction l generalizing a with
  | nil => simpa using Nat.min_eq_left (by omega)
  | cons e t ih =>
    rw [List.foldl_cons]
    cases h : lookupA we e with
    | none =>
      simp only [h]
      rw [ih a ha]
      simp [h]
    | some p =>
      simp only [h]
      rw [ih _ (satAdd128_le _ _)]
      simp only [h, Option.map_some', Option.getD_some, List.map_cons, List.sum_cons,
        satAdd128]
      omega

theorem map_points_preserved (l : List (Nat × UnbondPool)) (c : Nat → Prop)
    [DecidablePred c] (f : Nat × UnbondPool → Nat) :
    (l.map (fun p => if c p.1 then (p.1, UnbondPool.mk p.2.points (f p)) else p)).map
      (fun p => (p.1, p.2.points)) = l.map (fun p => (p.1, p.2.points)) := by
  induction l with
  | nil => rfl
  | cons a t ih => by_cases h : c a.1 <;> simp [h, ih]

/-- C1: `slash_pool` (whose body is `do_slash`) returns `none` when
`pool_stash` is not a bonded pool.  Otherwise, with affected balance
`active_bonded` plus the (saturating) sum of the balances of the `with_era`
entries of eras `slash_era + 1 ..= apply_era`: if the affected balance is
zero the result is all-zero and storage is untouched; otherwise each
affected entry's balance is reduced by
`slash_amount × balance / affected_balance` (saturating multiply,
truncating divide) and recorded in the returned map,
`slashed_bonded = active_bonded − slash_amount × active_bonded /
affected_balance`, every sub-pool's points and the `no_era` pool are
unchanged, and no other storage is touched. -/
theorem c1_slash_pool_spec (s : PoolsState) (args : SlashPoolArgs) :
    (containsA s.bondedPools args.pool_stash = false → do_slash s args = none) ∧
    (containsA s.bondedPools args.pool_stash = true →
      (slashAffectedBalance (slashSubPools s args.pool_stash) args.slash_era args.apply_era
          args.active_bonded = 0 →
        do_slash s args = some (⟨0, []⟩, s)) ∧
      (slashAffectedBalance (slashSubPools s args.pool_stash) args.slash_era args.apply_era
          args.active_bonded ≠ 0 →
        ∃ out s', do_slash s args = some (out, s') ∧
          out.slashed_bonded = args.active_bonded -
            satMul128 args.slash_amount args.active_bonded /
              slashAffectedBalance (slashSubPools s args.pool_stash) args.slash_era
                args.apply_era args.active_bonded ∧
          out.slashed_unlocking = (affectedRange args.slash_era args.apply_era).filterMap
            (fun e => (lookupA (slashSubPools s args.pool_stash).with_era e).map (fun p =>
              (e, p.balance - satMul128 args.slash_amount p.balance /
                slashAffectedBalance (slashSubPools s args.pool_stash) args.slash_era
                  args.apply_era args.active_bonded))) ∧
          s'.subPoolsStorage = insertA s.subPoolsStorage args.pool_stash
            ⟨(slashSubPools s args.pool_stash).no_era,
              (slashSubPools s args.pool_stash).with_era.map (fun p =>
                if args.slash_era + 1 ≤ p.1 ∧ p.1 ≤ args.apply_era then
                  (p.1, ⟨p.2.points, p.2.balance - satMul128 args.slash_amount p.2.balance /
                    slashAffectedBalance (slashSubPools s args.pool_stash) args.slash_era
                      args.apply_era args.active_bonded⟩)
                else p)⟩ ∧
          (∃ sp', lookupA s'.subPoolsStorage args.pool_stash = some sp' ∧
            sp'.no_era = (slashSubPools s args.pool_stash).no_era ∧
            sp'.with_era.map (fun p => (p.1, p.2.points))
              = (slashSubPools s args.pool_stash).with_era.map
                  (fun p => (p.1, p.2.points))) ∧
          s'.delegators = s.delegators ∧ s'.bondedPools = s.bondedPools ∧
          s'.rewardPools = s.rewardPools ∧ s'.balances = s.balances)) := by
  have hAB : satAdd128 args.active_bonded
      ((affectedRange args.slash_era args.apply_era).foldl
        (fun balance_sum era =>
          match lookupA ((lookupA s.subPoolsStorage args.pool_stash).getD
              ⟨⟨0, 0⟩, []⟩).with_era era with
          | some unbond_pool => satAdd128 balance_sum unbond_pool.balance
          | none => balance_sum) 0)
      = slashAffectedBalance (slashSubPools s args.pool_stash) args.slash_era args.apply_era
          args.active_bonded := by
    rw [slash_fold_eq _ _ 0 (Nat.zero_le _)]
    simp only [satAdd128, slashAffectedBalance, slashSubPools, Nat.zero_add]
    omega
  constructor
  · intro h
    simp [do_slash, h]
  · intro h
    rw [do_slash.eq_def, if_pos h]
    dsimp only
    rw [hAB]
    constructor
    · intro hab
      rw [if_pos hab]
    · intro hab
      rw [if_neg hab]
      refine ⟨_, _, rfl, rfl, rfl, rfl, ⟨_, lookupA_insertA_self _ _ _, rfl, ?_⟩,
        rfl, rfl, rfl, rfl⟩
      exact map_points_preserved (slashSubPools s args.pool_stash).with_era
        (fun e => args.slash_era + 1 ≤ e ∧ e ≤ args.apply_era)
        (fun p => p.2.balance - satMul128 args.slash_amount p.2.balance /
          slashAffectedBalance (slashSubPools s args.pool_stash) args.slash_era
            args.apply_era args.active_bonded)


/-- Witness for C1 at the spec's concrete slash scenario: affected balance
150, bonded 100 slashed to 80, era-5 sub-pool slashed to 40. -/
theorem c1_witness :
    (do_slash c1State c1Args).map (fun r => (r.1.slashed_bonded, r.1.slashed_unlocking))
      = some (80, [(5, 40)]) := by
  obtain ⟨out, s', heq, hb, hu, -⟩ :=
    ((c1_slash_pool_spec c1State c1Args).2 (by decide)).2 (by decide)
  rw [heq]
  simp only [Option.map_some']
  rw [hb, hu]
  decide

/-! ### C2: claim_payout -/

/-- C2: for a claim by delegator `d` with `unbonding_era` absent, with `b`
the reward account's current free balance: `total_earnings` is increased by
`b − reward_pool.balance` (saturating); `current_points =
reward_pool.points + bonded_pool.points × new_earnings`;
`delegator_virtual_points = d.points × (total_earnings −
d.reward_pool_total_earnings)`; the payout is `b ×
delegator_virtual_points / current_points` in saturating 256-bit
arithmetic with division only when `current_points > 0`; and whenever any
of `delegator_virtual_points`, `current_points`, or the recorded reward
balance is zero, the payout is zero, no balance moves, and
`d.reward_pool_total_earnings` is still set to the updated
`total_earnings`. -/
theorem c2_claim_payout_spec (s : PoolsState) (who : Nat) (d : Delegator)
    (bp : BondedPoolStorage) (rp : RewardPool)
    (hd : lookupA s.delegators who = some d)
    (hbp : lookupA s.bondedPools d.pool = some bp)
    (hrp : lookupA s.rewardPools d.pool = some rp)
    (hu : d.unbonding_era = none) :
    calculate_delegator_payout bp.points rp d (s.balances rp.account) =
      Except.ok
        ({ rp with
            total_earnings := claimTotalEarnings rp (s.balances rp.account),
            balance := s.balances rp.account -
              claimPayoutAmount bp.points d rp (s.balances rp.account),
            points := claimCurrentPoints bp.points rp (s.balances rp.account) -
              claimVirtualPoints d rp (s.balances rp.account) },
          { d with reward_pool_total_earnings :=
              claimTotalEarnings rp (s.balances rp.account) },
          claimPayoutAmount bp.points d rp (s.balances rp.account)) ∧
    (claimVirtualPoints d rp (s.balances rp.account) = 0 ∨
        claimCurrentPoints bp.points rp (s.balances rp.account) = 0 ∨
        s.balances rp.account = 0 →
      claimPayoutAmount bp.points d rp (s.balances rp.account) = 0 ∧
      (claim_payout s who).1 = none ∧
      (∀ a, (claim_payout s who).2.balances a = s.balances a) ∧
      lookupA (claim_payout s who).2.delegators who =
        some { d with
          reward_pool_total_earnings := claimTotalEarnings rp (s.balances rp.account) }) := by
  have hcalc : calculate_delegator_payout bp.points rp d (s.balances rp.account) =
      Except.ok
        ({ rp with
            total_earnings := claimTotalEarnings rp (s.balances rp.account),
            balance := s.balances rp.account -
              claimPayoutAmount bp.points d rp (s.balances rp.account),
            points := claimCurrentPoints bp.points rp (s.balances rp.account) -
              claimVirtualPoints d rp (s.balances rp.account) },
          { d with reward_pool_total_earnings :=
              claimTotalEarnings rp (s.balances rp.account) },
          claimPayoutAmount bp.points d rp (s.balances rp.account)) := by
    simp only [calculate_delegator_payout, RewardPool.update_total_earnings_and_balance,
      hu, Option.isSome_none, Bool.false_eq_true, if_false,
      claimPayoutAmount, claimTotalEarnings, claimCurrentPoints, claimVirtualPoints]
  refine ⟨hcalc, fun hz => ?_⟩
  have hzero : claimPayoutAmount bp.points d rp (s.balances rp.account) = 0 := by
    simp only [claimPayoutAmount, if_pos hz]
  rw [hzero] at hcalc
  refine ⟨hzero, ?_, ?_, ?_⟩
  · simp only [claim_payout, hd, hbp, do_reward_payout, hrp]
    rw [hcalc]
    simp [transferB]
  · intro a
    simp only [claim_payout, hd, hbp, do_reward_payout, hrp]
    rw [hcalc]
    simp only [transferB]
    simp [updF]
    split_ifs <;> simp_all
  · simp only [claim_payout, hd, hbp, do_reward_payout, hrp]
    rw [hcalc]
    simp [transferB]
    exact lookupA_insertA_self _ _ _

/-- Witness for C2: with no rewards accrued, the payout is zero and the
claim succeeds without error. -/
theorem c2_witness :
    claimPayoutAmount 10 ⟨1, 10, 0, none⟩ ⟨4, 0, 0, 0⟩ (c2State.balances 4) = 0 ∧
    (claim_payout c2State 2).1 = none := by
  have h := (c2_claim_payout_spec c2State 2 ⟨1, 10, 0, none⟩ ⟨10, 3, 3, 3, 3, PoolState.Open⟩
    ⟨4, 0, 0, 0⟩ (by decide) (by decide) (by decide) rfl).2
    (Or.inr (Or.inr (by decide)))
  exact ⟨h.1, h.2.1⟩

theorem ok_to_withdraw_error_ne (bp : BondedPoolStorage) (caller target : Nat)
    (d : Delegator) (sp : SubPools) (e : PoolsError) :
    ok_to_withdraw_unbonded_other_with bp caller target d sp = Except.error e →
    e = PoolsError.NotOnlyDelegator ∨ e = PoolsError.NotKickerOrDestroying := by
  unfold ok_to_withdraw_unbonded_other_with
  intro h
  repeat' split at h
  all_goals cases h
  all_goals simp

/-! ### C10: missing current era -/

/-- C10: when the staking interface's `current_era()` returns `None`, both
`unbond_other` and `withdraw_unbonded_other` substitute era 0: a
successful `unbond_other` records `unbonding_era = Some 0` and issues into
the era-0 sub-pool, and `withdraw_unbonded_other`'s timing check
`0 − unbonding_era ≥ bonding_duration` (saturating) passes exactly when
`bonding_duration = 0`, so with a nonzero bonding duration it fails with
`NotUnbondedYet`, and with a zero bonding duration `NotUnbondedYet` is
never returned. -/
theorem c10_missing_era_spec :
    (∀ (cfg : PoolsConfig) (stk : StakingIface) (s : PoolsState) (caller target : Nat),
      stk.currentEra = none →
      (unbond_other cfg stk s caller target).1 = none →
      ∃ d, lookupA (unbond_other cfg stk s caller target).2.delegators target = some d ∧
        d.unbonding_era = some 0 ∧
        ∃ sp, lookupA (unbond_other cfg stk s caller target).2.subPoolsStorage d.pool
            = some sp ∧
          (lookupA sp.with_era 0).isSome = true) ∧
    (∀ (stk : StakingIface) (s : PoolsState) (caller target nss ue : Nat) (d : Delegator),
      stk.currentEra = none →
      lookupA s.delegators target = some d →
      d.unbonding_era = some ue →
      (stk.bondingDuration ≠ 0 →
        withdraw_unbonded_other stk s caller target nss = (some PoolsError.NotUnbondedYet, s)) ∧
      (stk.bondingDuration = 0 →
        (withdraw_unbonded_other stk s caller target nss).1 ≠
          some PoolsError.NotUnbondedYet)) := by
  constructor
  · intro cfg stk s caller target hce hok
    rcases hres : unbond_other cfg stk s caller target with ⟨e, st⟩
    rw [hres] at hok
    dsimp only at hok ⊢
    subst hok
    unfold unbond_other at hres
    dsimp only at hres
    repeat' split at hres
    all_goals try exact Option.noConfusion (congrArg Prod.fst hres)
    have hst := congrArg Prod.snd hres
    dsimp only at hst
    subst hst
    simp only [hce, Option.getD_none]
    refine ⟨_, lookupA_insertA_self _ _ _, rfl, ?_⟩
    refine ⟨_, lookupA_insertA_self _ _ _, ?_⟩
    simp [SubPools.get_or_make_issue, lookupA_insertA_self]
  · intro stk s caller target nss ue d hce hd hue
    constructor
    · intro hbd
      unfold withdraw_unbonded_other
      simp only [hd, hue, hce, Option.getD_none]
      rw [if_pos (by omega)]
    · intro hbd
      unfold withdraw_unbonded_other
      simp only [hd, hue, hce, Option.getD_none]
      rw [if_neg (by omega)]
      dsimp only
      repeat' split <;> try simp
      all_goals
        rename_i e2 heq2
        rcases ok_to_withdraw_error_ne _ _ _ _ _ _ heq2 with h | h <;> simp [h]

/-- Witness for C10: with `current_era()` absent, a successful
`unbond_other` stores the target with era 0, and a delegator unbonded at
era 0 cannot withdraw while the bonding duration is 3. -/
theorem c10_witness :
    (lookupA (unbond_other c10Cfg c10Stk c10State 2 2).2.delegators 2).isSome = true ∧
    withdraw_unbonded_other c10Stk c10State 9 5 0 =
      (some PoolsError.NotUnbondedYet, c10State) := by
  obtain ⟨d, hd, -, -⟩ := c10_missing_era_spec.1 c10Cfg c10Stk c10State 2 2 rfl (by decide)
  exact ⟨by rw [hd]; rfl,
    (c10_missing_era_spec.2 c10Stk c10State 9 5 0 0 ⟨1, 5, 0, some 0⟩ rfl (by decide)
      rfl).1 (by decide)⟩

/-! ### C9: zero-point sub-pool entries -/

/-- C9 (code bug): `unbond_other` of a delegator whose
`balance_to_unbond` is zero (here because the pool's bonded balance was
fully slashed) succeeds and stores a fresh `with_era` entry with
`points = 0` (and balance 0), contradicting the invariant that `with_era`
entries with zero points are always deleted — an invariant the source
itself assumes in `ok_to_withdraw_unbonded_other_with` ("This assumes
with_era sub pools are destroyed whenever their points go to zero"). -/
theorem c9_zero_points_entry_bug :
    (unbond_other c9Cfg c9Stk c9State 2 2).1 = none ∧
    lookupA (unbond_other c9Cfg c9Stk c9State 2 2).2.subPoolsStorage 1
      = some ⟨⟨0, 0⟩, [(5, ⟨0, 0⟩)]⟩ := by
  decide

/-! ### C7: join admission checks -/

theorem ok_to_join_spec (cfg : PoolsConfig) (stk : StakingIface) (bp : BondedPoolStorage)
    (account new_funds : Nat) :
    (bp.state ≠ PoolState.Open →
      ok_to_join_with cfg stk bp account new_funds = some PoolsError.NotOpen) ∧
    (bp.state = PoolState.Open →
      ((stk.bondedBalance account).getD 0 = 0 ∨
        ¬ (bp.points / (stk.bondedBalance account).getD 0 < cfg.poolSizeMax) ∨
        ¬ (satAdd128 new_funds ((stk.bondedBalance account).getD 0)
            < maxU128 / cfg.poolSizeMax)) →
      ok_to_join_with cfg stk bp account new_funds = some PoolsError.OverflowRisk) ∧
    (bp.state = PoolState.Open →
      (stk.bondedBalance account).getD 0 ≠ 0 →
      bp.points / (stk.bondedBalance account).getD 0 < cfg.poolSizeMax →
      satAdd128 new_funds ((stk.bondedBalance account).getD 0) < maxU128 / cfg.poolSizeMax →
      ok_to_join_with cfg stk bp account new_funds = none) := by
  unfold ok_to_join_with
  refine ⟨fun h => ?_, fun h hz => ?_, fun h h1 h2 h3 => ?_⟩
  · rw [if_pos h]
  · rw [if_neg (by simp [h])]
    dsimp only
    rcases hz with hz | hz | hz
    · rw [if_pos hz]
    · rcases Decidable.em ((stk.bondedBalance account).getD 0 = 0) with h0 | h0
      · rw [if_pos h0]
      · rw [if_neg h0, if_pos hz]
    · rcases Decidable.em ((stk.bondedBalance account).getD 0 = 0) with h0 | h0
      · rw [if_pos h0]
      · rw [if_neg h0]
        rcases Decidable.em
            (bp.points / (stk.bondedBalance account).getD 0 < cfg.poolSizeMax) with hr | hr
        · rw [if_neg (by simpa using hr), if_pos hz]
        · rw [if_pos hr]
  · rw [if_neg (by simp [h]), if_neg h1, if_neg (by simpa using h2),
      if_neg (by simpa using h3)]

/-- C7: `join` fails with `MinimumBondNotMet` when `amount < MinJoinBond`;
then with `AccountBelongsToOtherPool` when the caller is already a
delegator; then with `PoolNotFound` when the pool does not exist; then
with `NotOpen` when the pool state is not Open; then with `OverflowRisk`
when the bonded balance is zero, or `points / bonded_balance` is not below
`PoolSizeMax`, or `amount + bonded_balance` (saturating) is not below
`max_balance / PoolSizeMax`; and only when every check passes (and the
reward pool exists and the external transfer and `bond_extra` succeed)
does it transfer the funds and issue points. -/
theorem c7_join_checks_spec (cfg : PoolsConfig) (stk : StakingIface) (s : PoolsState)
    (who amount pool_account : Nat) :
    (amount < s.min_join_bond →
      join cfg stk s who amount pool_account = (some PoolsError.MinimumBondNotMet, s)) ∧
    (¬ amount < s.min_join_bond → containsA s.delegators who = true →
      join cfg stk s who amount pool_account
        = (some PoolsError.AccountBelongsToOtherPool, s)) ∧
    (¬ amount < s.min_join_bond → containsA s.delegators who = false →
      lookupA s.bondedPools pool_account = none →
      join cfg stk s who amount pool_account = (some PoolsError.PoolNotFound, s)) ∧
    (∀ bp, ¬ amount < s.min_join_bond → containsA s.delegators who = false →
      lookupA s.bondedPools pool_account = some bp →
      (bp.state ≠ PoolState.Open →
        join cfg stk s who amount pool_account = (some PoolsError.NotOpen, s)) ∧
      (bp.state = PoolState.Open →
        ((stk.bondedBalance pool_account).getD 0 = 0 ∨
          ¬ (bp.points / (stk.bondedBalance pool_account).getD 0 < cfg.poolSizeMax) ∨
          ¬ (satAdd128 amount ((stk.bondedBalance pool_account).getD 0)
              < maxU128 / cfg.poolSizeMax)) →
        join cfg stk s who amount pool_account = (some PoolsError.OverflowRisk, s)) ∧
      (∀ rp bal1, bp.state = PoolState.Open →
        (stk.bondedBalance pool_account).getD 0 ≠ 0 →
        bp.points / (stk.bondedBalance pool_account).getD 0 < cfg.poolSizeMax →
        satAdd128 amount ((stk.bondedBalance pool_account).getD 0)
          < maxU128 / cfg.poolSizeMax →
        lookupA s.rewardPools pool_account = some rp →
        transferB s.balances who pool_account amount = some bal1 →
        stk.bondExtraOk pool_account amount = true →
        join cfg stk s who amount pool_account = (none, { s with
          balances := bal1,
          delegators := insertA s.delegators who
            ⟨pool_account,
              points_to_issue ((stk.bondedBalance pool_account).getD 0) bp.points amount,
              claimTotalEarnings rp (s.balances rp.account), none⟩,
          bondedPools := insertA s.bondedPools pool_account
            { bp with points := satAdd128 bp.points (points_to_issue
                ((stk.bondedBalance pool_account).getD 0) bp.points amount) } }))) := by
  refine ⟨fun h1 => ?_, fun h1 h2 => ?_, fun h1 h2 h3 => ?_, fun bp h1 h2 h3 => ?_⟩
  · unfold join
    rw [if_pos h1]
  · unfold join
    rw [if_neg h1, if_pos (by simp [h2])]
  · unfold join
    rw [if_neg h1, if_neg (by simp [h2])]
    simp only [h3]
  · refine ⟨fun h4 => ?_, fun h4 h5 => ?_, fun rp bal1 h4 h5 h6 h7 h8 h9 h10 => ?_⟩
    · unfold join
      rw [if_neg h1, if_neg (by simp [h2])]
      simp only [h3]
      rw [(ok_to_join_spec cfg stk bp pool_account amount).1 h4]
    · unfold join
      rw [if_neg h1, if_neg (by simp [h2])]
      simp only [h3]
      rw [(ok_to_join_spec cfg stk bp pool_account amount).2.1 h4 h5]
    · unfold join
      rw [if_neg h1, if_neg (by simp [h2])]
      simp only [h3]
      rw [(ok_to_join_spec cfg stk bp pool_account amount).2.2 h4 h5 h6 h7]
      simp only [h8]
      rw [h9]
      simp only [h10, if_true]
      simp only [RewardPool.update_total_earnings_and_balance, claimTotalEarnings]

/-- Witness for C7: joining with 3 < MinJoinBond 5 is refused with no
state change; joining with 20 passes every check and succeeds. -/
theorem c7_witness :
    join c7Cfg c7Stk c7State 9 3 1 = (some PoolsError.MinimumBondNotMet, c7State) ∧
    (join c7Cfg c7Stk c7State 9 20 1).1 = none := by
  refine ⟨(c7_join_checks_spec c7Cfg c7Stk c7State 9 3 1).1 (by decide), ?_⟩
  have h := ((c7_join_checks_spec c7Cfg c7Stk c7State 9 20 1).2.2.2
      ⟨10, 3, 3, 3, 3, PoolState.Open⟩ (by decide) (by decide) (by decide)).2.2
    ⟨4, 0, 0, 0⟩ _ rfl (by decide) (by decide) (by decide) (by decide) rfl rfl
  rw [h]

/-! ### C5: atomicity of the public operations -/

/-- Counterexample for C5: `unbond_other` is not transactional; when the
external staking `unbond` call fails after the reward payout step, the
call returns an error yet the payout's storage writes and balance
transfer survive — the stored delegator record and the target's free
balance both differ from the starting state. -/
theorem c5_atomicity_cex :
    (unbond_other c5Cfg c5Stk c5State 2 2).1 = some PoolsError.StakingFailed ∧
    (unbond_other c5Cfg c5Stk c5State 2 2).2.delegators ≠ c5State.delegators ∧
    (unbond_other c5Cfg c5Stk c5State 2 2).2.balances 2 ≠ c5State.balances 2 := by
  decide

/-- C5 (amended): every public operation except `unbond_other` is atomic:
an error from `create`, `join` (both marked transactional in the source),
`claim_payout`, or `pool_withdraw_unbonded` leaves the state exactly as it
was, and likewise for `withdraw_unbonded_other` in any state satisfying
the invariant that the target's pool has a reward pool (without that
invariant its defensive `RewardPools::take` can fail after the balance
transfer).  `unbond_other` is excluded: the reward payout it performs
survives a later failure of the external staking `unbond` call. -/
theorem c5_atomicity_amended :
    (∀ (stk : StakingIface) (s : PoolsState)
        (who amount pool_account reward_account root nominator state_toggler : Nat)
        (e : PoolsError) (st : PoolsState),
      create stk s who amount pool_account reward_account root nominator state_toggler
        = (some e, st) → st = s) ∧
    (∀ (cfg : PoolsConfig) (stk : StakingIface) (s : PoolsState)
        (who amount pool_account : Nat) (e : PoolsError) (st : PoolsState),
      join cfg stk s who amount pool_account = (some e, st) → st = s) ∧
    (∀ (s : PoolsState) (who : Nat) (e : PoolsError) (st : PoolsState),
      claim_payout s who = (some e, st) → st = s) ∧
    (∀ (stk : StakingIface) (s : PoolsState) (pool_account nss : Nat)
        (e : PoolsError) (st : PoolsState),
      pool_withdraw_unbonded stk s pool_account nss = (some e, st) → st = s) ∧
    (∀ (stk : StakingIface) (s : PoolsState) (caller target nss : Nat) (d : Delegator)
        (e : PoolsError) (st : PoolsState),
      lookupA s.delegators target = some d →
      containsA s.rewardPools d.pool = true →
      withdraw_unbonded_other stk s caller target nss = (some e, st) → st = s) := by
  refine ⟨?_, ?_, ?_, ?_, ?_⟩
  · intro stk s who amount pool_account reward_account root nominator state_toggler e st h
    unfold create at h
    dsimp only at h
    repeat' split at h
    all_goals try (injection h with h1 h2; exact h2.symm)
    all_goals injection h with h1 h2; exact Option.noConfusion h1
  · intro cfg stk s who amount pool_account e st h
    unfold join at h
    dsimp only at h
    repeat' split at h
    all_goals try (injection h with h1 h2; exact h2.symm)
    all_goals injection h with h1 h2; exact Option.noConfusion h1
  · intro s who e st h
    unfold claim_payout at h
    repeat' split at h
    all_goals try (injection h with h1 h2; exact h2.symm)
    all_goals injection h with h1 h2; exact Option.noConfusion h1
  · intro stk s pool_account nss e st h
    unfold pool_withdraw_unbonded at h
    repeat' split at h
    all_goals try (injection h with h1 h2; exact h2.symm)
  · intro stk s caller target nss d e st hd hrp h
    unfold withdraw_unbonded_other at h
    rw [hd] at h
    dsimp only at h
    repeat' split at h
    all_goals try (injection h with h1 h2; exact h2.symm)
    all_goals try (injection h with h1 h2; exact Option.noConfusion h1)
    all_goals simp_all [containsA]
    all_goals obtain ⟨-, h2⟩ := h
    all_goals subst h2
    all_goals simp_all

/-- Witness for C5 (amended): a refused `join` leaves the state exactly
unchanged. -/
theorem c5_atomicity_witness :
    (join c7Cfg c7Stk c7State 9 3 1).2 = c7State :=
  c5_atomicity_amended.2.1 c7Cfg c7Stk c7State 9 3 1 PoolsError.MinimumBondNotMet
    ((join c7Cfg c7Stk c7State 9 3 1).2) rfl
